import Mathlib

/-!
Shallow embedding of the CTRCD clinical pipeline
(`preprocess_cardiotox.py`, `analyze_and_model.py`, `serve_predict.py`).

Missing/NaN values are modelled as `Option ℚ` with `none` for missing;
pandas NaN comparison semantics (every comparison with NaN is false) is
reflected in the per-value cleaning and band functions below.
-/

set_option autoImplicit false

namespace Cardiotox

/-- A patient row after numeric coercion: each named field is a rational
or missing (`none`), mirroring a pandas row of floats with NaN. -/
abbrev Row := String → Option ℚ

/-- JSON-ish values that can appear in the request dict `data`. -/
inductive JVal where
  | null
  | num (q : ℚ)
  | str (s : String)
  | bool (b : Bool)
deriving DecidableEq

/-- The request `data` dict of `serve_predict.py`. -/
abbrev Dict := List (String × JVal)

/-- Embeds `d.get(k)` on a Python dict: first binding of `k`, else `None`. -/
def getIn (d : Dict) (k : String) : Option JVal :=
  (d.find? (fun p => p.1 = k)).map (fun p => p.2)

/-- Value of a digit string read in base 10. -/
def digitsVal (l : List Char) : ℕ :=
  l.foldl (fun a c => a * 10 + (c.toNat - 48)) 0

/-- Drops leading and trailing whitespace characters, as `float` does
before parsing. -/
def trimChars (l : List Char) : List Char :=
  ((l.dropWhile (fun c => c.isWhitespace)).reverse.dropWhile
    (fun c => c.isWhitespace)).reverse

/-- The effect of `float(s)` on a string, abstracted to plain decimal
literals (optional sign, optional fraction part); anything else is
unparseable. -/
def pyFloatOfStr (s : String) : Option ℚ :=
  let cs := trimChars s.toList
  let signed : ℚ × List Char :=
    match cs with
    | '-' :: t => (-1, t)
    | '+' :: t => (1, t)
    | _ => (1, cs)
  let sign := signed.1
  let body := signed.2
  let ip := body.takeWhile (fun c => c.isDigit)
  let rest := body.dropWhile (fun c => c.isDigit)
  match rest with
  | [] =>
      if ip.isEmpty then none
      else some (sign * (digitsVal ip : ℚ))
  | '.' :: frac =>
      if frac.all (fun c => c.isDigit) ∧ (ip ≠ [] ∨ frac ≠ []) then
        some (sign * ((digitsVal ip : ℚ) + (digitsVal frac : ℚ) / (10 : ℚ) ^ frac.length))
      else none
  | _ => none

/-- The effect of `float(v)` on a JSON value: numbers pass through, booleans become
0/1, strings are parsed, null fails. -/
def pyFloat (v : JVal) : Option ℚ :=
  match v with
  | .null => none
  | .num q => some q
  | .bool b => some (if b then 1 else 0)
  | .str s => pyFloatOfStr s

/-- Embeds `serve_predict.to_float`: `None` stays `None`, otherwise `float(v)`
with every conversion error caught and turned into `None`. -/
def to_float (v : Option JVal) : Option ℚ :=
  match v with
  | none => none
  | some j => pyFloat j

/-- The list `serve_predict.BASE_INPUTS`. -/
def BASE_INPUTS : List String :=
  ["age", "weight", "height", "LVEF", "heart_rate", "heart_rhythm",
   "PWT", "LAd", "LVDd", "LVSd", "AC", "antiHER2", "ACprev", "antiHER2prev",
   "HTA", "DL", "DM", "smoker", "exsmoker", "RTprev", "CIprev", "ICMprev",
   "ARRprev", "VALVprev", "cxvalv"]

/-- The ten comorbidity flag columns (identical lists in
`analyze_and_model.add_comorbidity_score` and `serve_predict.build_row`). -/
def COM_COLS : List String :=
  ["HTA", "DL", "DM", "smoker", "exsmoker", "CIprev", "ICMprev", "ARRprev",
   "VALVprev", "cxvalv"]

/-- The list `CLINICAL_COLS`, shared by both batch scripts. -/
def CLINICAL_COLS : List String :=
  ["age", "weight", "height", "CTRCD", "time", "LVEF", "heart_rate",
   "heart_rhythm", "PWT", "LAd", "LVDd", "LVSd", "AC", "antiHER2", "ACprev",
   "antiHER2prev", "HTA", "DL", "DM", "smoker", "exsmoker", "RTprev",
   "CIprev", "ICMprev", "ARRprev", "VALVprev", "cxvalv"]

/-- The list `analyze_and_model.BIN_COLS`: columns restricted to values 0/1. -/
def BIN_COLS : List String :=
  ["CTRCD", "heart_rhythm", "AC", "antiHER2", "ACprev", "antiHER2prev",
   "HTA", "DL", "DM", "smoker", "exsmoker", "RTprev", "CIprev", "ICMprev",
   "ARRprev", "VALVprev", "cxvalv"]

/-- The per-column plausible ranges of `analyze_and_model.clean_ranges`. -/
def RANGES : List (String × ℚ × ℚ) :=
  [("age", 18, 95), ("weight", 30, 200), ("height", 120, 210),
   ("LVEF", 10, 80), ("heart_rate", 30, 220),
   ("PWT", 1/2, 5/2), ("LAd", 2, 6), ("LVDd", 3, 15/2), ("LVSd", 2, 6)]

/-- The per-column plausible ranges of `preprocess_cardiotox.clean_values`
(`clean_ranges` plus the `time` column). -/
def RANGES_PRE : List (String × ℚ × ℚ) :=
  RANGES ++ [("time", 0, 5000)]

/-- Binary columns cleaned by `preprocess_cardiotox.clean_values`
(`heart_rhythm` is handled by its own `isin([0,1])` line, the rest by the
`bin_cols` loop; the per-value effect is identical). -/
def BIN_COLS_PRE : List String :=
  "heart_rhythm" :: ["CTRCD", "AC", "antiHER2", "ACprev", "antiHER2prev",
   "HTA", "DL", "DM", "smoker", "exsmoker", "RTprev", "CIprev", "ICMprev",
   "ARRprev", "VALVprev", "cxvalv"]

/-- One range-cleaning step: `df.loc[(df[col] < lo) | (df[col] > hi), col]
= np.nan`. A NaN input compares false on both sides and stays NaN. -/
def cleanRange (lo hi : ℚ) (v : Option ℚ) : Option ℚ :=
  match v with
  | none => none
  | some q => if q < lo ∨ hi < q then none else some q

/-- One binary-cleaning step: `df.loc[~df[c].isin([0,1]), c] = np.nan`. -/
def cleanBin (v : Option ℚ) : Option ℚ :=
  match v with
  | none => none
  | some q => if q = 0 ∨ q = 1 then some q else none

/-- Per-value effect of `analyze_and_model.clean_ranges` on column `c`:
the range loop runs first, then the binary loop. -/
def clean_ranges_val (c : String) (v : Option ℚ) : Option ℚ :=
  let v1 :=
    match RANGES.find? (fun p => p.1 = c) with
    | some p => cleanRange p.2.1 p.2.2 v
    | none => v
  if c ∈ BIN_COLS then cleanBin v1 else v1

/-- Per-value effect of `preprocess_cardiotox.clean_values` on column `c`. -/
def clean_values_val (c : String) (v : Option ℚ) : Option ℚ :=
  let v1 :=
    match RANGES_PRE.find? (fun p => p.1 = c) with
    | some p => cleanRange p.2.1 p.2.2 v
    | none => v
  if c ∈ BIN_COLS_PRE then cleanBin v1 else v1

/-- Per-row `add_bmi` (same arithmetic in both batch scripts): BMI is
weight divided by the square of height in metres, then invalidated
(made missing) outside [10, 60]. A zero height gives ±inf or NaN in
pandas, all of which end up missing after the invalidation mask. -/
def add_bmi_row (r : Row) : Option ℚ :=
  match r "weight", r "height" with
  | some w, some h =>
      let hm := h / 100
      if hm = 0 then none
      else
        let bmi := w / (hm * hm)
        if bmi < 10 ∨ 60 < bmi then none else some bmi
  | _, _ => none

/-- Per-row `analyze_and_model.add_comorbidity_score`:
`df[cols].fillna(0).astype(float).sum(axis=1)` — missing flags count 0. -/
def comorbidity_score_train (r : Row) : ℚ :=
  (COM_COLS.map (fun c => (r c).getD 0)).sum

/-- The comorbidity score of `serve_predict.build_row`:
`np.nansum` over the flag values that are not `None`. -/
def comorbidity_score_serve (r : Row) : ℚ :=
  ((COM_COLS.map r).filterMap id).sum

/-- The `LVEF_low` indicator: `(LVEF < 50)` with NaN comparing false
(pandas) — identically `lvef is not None and lvef < 50` in the shim. -/
def LVEF_low (v : Option ℚ) : ℚ :=
  match v with
  | some l => if l < 50 then 1 else 0
  | none => 0

/-- The `LVEF_50_60` indicator: `(LVEF >= 50) & (LVEF < 60)`. -/
def LVEF_50_60 (v : Option ℚ) : ℚ :=
  match v with
  | some l => if 50 ≤ l ∧ l < 60 then 1 else 0
  | none => 0

/-- The `LVEF_ge60` indicator: `(LVEF >= 60)`. -/
def LVEF_ge60 (v : Option ℚ) : ℚ :=
  match v with
  | some l => if 60 ≤ l then 1 else 0
  | none => 0

/-- The cleaned LVEF column of `build_feature_matrix`: `clean_ranges`
runs before the band indicators are derived from `X["LVEF"]`. -/
def cleanLVEF (r : Row) : Option ℚ :=
  clean_ranges_val "LVEF" (r "LVEF")

/-- The names of the features `build_row` derives on top of the raw
inputs (the keys added to `x` after the `to_float` pass). -/
def DERIVED_COLS : List String :=
  ["BMI", "comorbidity_score", "LVEF_low", "LVEF_50_60", "LVEF_ge60",
   "LVEF_low_x_AC", "LVEF_low_x_antiHER2"]

/-- The candidate raw feature columns of `build_feature_matrix`
(`feature_cols` before the presence filter, minus the derived
`BMI`/`comorbidity_score`). -/
def RAW_FEATURE_COLS : List String :=
  ["age", "LVEF", "heart_rate", "heart_rhythm", "PWT", "LAd", "LVDd",
   "LVSd", "AC", "antiHER2", "ACprev", "antiHER2prev", "HTA", "DL", "DM",
   "smoker", "exsmoker", "RTprev", "CIprev", "ICMprev", "ARRprev",
   "VALVprev", "cxvalv"]

/-- Per-row view of the feature matrix `X` of
`analyze_and_model.build_feature_matrix` (all clinical columns present):
`coerce_numeric`, `add_bmi` and `add_comorbidity_score` run on the raw
values, `clean_ranges` runs afterwards, and the LVEF bands and
interaction terms are derived from the cleaned columns. -/
def trainX (r : Row) : String → Option ℚ := fun c =>
  if c = "BMI" then add_bmi_row r
  else if c = "comorbidity_score" then some (comorbidity_score_train r)
  else if c = "LVEF_low" then some (LVEF_low (cleanLVEF r))
  else if c = "LVEF_50_60" then some (LVEF_50_60 (cleanLVEF r))
  else if c = "LVEF_ge60" then some (LVEF_ge60 (cleanLVEF r))
  else if c = "LVEF_low_x_AC" then
    (clean_ranges_val "AC" (r "AC")).map (fun a => LVEF_low (cleanLVEF r) * a)
  else if c = "LVEF_low_x_antiHER2" then
    (clean_ranges_val "antiHER2" (r "antiHER2")).map
      (fun a => LVEF_low (cleanLVEF r) * a)
  else if c ∈ RAW_FEATURE_COLS then clean_ranges_val c (r c)
  else none

/-- The parsed base-input row of `build_row`:
`x = {k: to_float(d.get(k)) for k in BASE_INPUTS}`. -/
def xParsed (d : Dict) : Row := fun k =>
  if k ∈ BASE_INPUTS then to_float (getIn d k) else none

/-- The BMI of `serve_predict.build_row` over the parsed inputs:
guarded by Python truthiness (`None` and `0.0` both fail the outer
test), and not invalidated against [10, 60]. -/
def srvBMI (x : Row) : Option ℚ :=
  match x "weight", x "height" with
  | some w, some h =>
      if w = 0 ∨ h = 0 then none
      else
        let hm := h / 100
        if hm ≠ 0 ∧ 0 < hm then some (w / (hm * hm)) else none
  | _, _ => none

/-- The term `x["LVEF_low"] * (x.get("AC") or 0.0)` of `build_row`:
a missing (or zero) treatment flag contributes 0. -/
def srvLVEFlowX (x : Row) (flag : String) : ℚ :=
  LVEF_low (x "LVEF") * ((x flag).getD 0)

/-- The full `x` dict of `build_row` over the parsed inputs: base inputs
plus the derived entries. -/
def srvDerived (x : Row) : String → Option ℚ := fun c =>
  if c = "BMI" then srvBMI x
  else if c = "comorbidity_score" then some (comorbidity_score_serve x)
  else if c = "LVEF_low" then some (LVEF_low (x "LVEF"))
  else if c = "LVEF_50_60" then some (LVEF_50_60 (x "LVEF"))
  else if c = "LVEF_ge60" then some (LVEF_ge60 (x "LVEF"))
  else if c = "LVEF_low_x_AC" then some (srvLVEFlowX x "AC")
  else if c = "LVEF_low_x_antiHER2" then some (srvLVEFlowX x "antiHER2")
  else x c

/-- Embeds `serve_predict.build_row`: the one-row frame
`{f: x.get(f, None) for f in features}` with columns in `features` order;
a feature not in `x` becomes `None`. -/
def build_row (features : List String) (d : Dict) : List (String × Option ℚ) :=
  features.map (fun f => (f, srvDerived (xParsed d) f))

/-- The request payload of the `/predict` endpoint. -/
structure Payload where
  data : Dict
  threshold : Option ℚ
deriving DecidableEq

/-- Values appearing in the JSON response of `/predict`. -/
inductive RVal where
  | rq (x : ℚ)
  | ri (i : ℤ)
  | rnat (n : ℕ)
  | rdict (l : List (String × Option JVal))
deriving DecidableEq

/-- Embeds `serve_predict.predict`, with the loaded model abstracted as a
function `m` from the one-row frame to a probability: builds the row,
picks the threshold (request value if supplied, else 0.30), thresholds
the probability with `>=`, and returns the response dict in source
order. The `echo` dict holds the raw request LVEF and the derived
BMI and comorbidity score. -/
def predict (m : List (String × Option ℚ) → ℚ) (features : List String)
    (p : Payload) : List (String × RVal) :=
  let df := build_row features p.data
  let prob := m df
  let thr := (p.threshold).getD (3/10)
  let pred : ℤ := if thr ≤ prob then 1 else 0
  let x := srvDerived (xParsed p.data)
  [("prob", .rq prob), ("pred", .ri pred), ("threshold", .rq thr),
   ("echo", .rdict [("LVEF", getIn p.data "LVEF"),
                    ("BMI", (x "BMI").map .num),
                    ("comorbidity_score", (x "comorbidity_score").map .num)]),
   ("feature_count", .rnat features.length)]

/-- Returns `true` exactly on `Except.error`. -/
def isErr {α : Type} (e : Except String α) : Bool :=
  match e with
  | .error _ => true
  | .ok _ => false

/-- Columns the preprocessing pipeline reads unconditionally after
`read_csv`, in execution order: `add_bmi` reads `height` then `weight`,
`add_age_band` reads `age`, and `add_therapy_group` reads `AC`,
`antiHER2`, `ACprev` and `antiHER2prev`; accessing one that `read_csv`
did not keep raises `KeyError` and aborts the script. -/
def PRE_REQUIRED_COLS : List String :=
  ["height", "weight", "age", "AC", "antiHER2", "ACprev", "antiHER2prev"]

/-- The abort behaviour of the `preprocess_cardiotox` batch path on an
input with columns `cols`: `read_csv` keeps the expected clinical
columns present in the file and raises when none is; the derivation
steps then raise `KeyError` at the first unconditionally-accessed
column missing from the kept frame (`add_comorbidity_score`,
`clean_values` and `finalize` guard their accesses and never raise). -/
def preprocess_checks (cols : List String) : Except String (List String) :=
  if (CLINICAL_COLS.filter (fun c => c ∈ cols)).isEmpty then
    .error "No expected clinical columns found"
  else
    match PRE_REQUIRED_COLS.find? (fun c =>
        c ∉ CLINICAL_COLS.filter (fun c2 => c2 ∈ cols)) with
    | some c => .error c
    | none => .ok (CLINICAL_COLS.filter (fun c => c ∈ cols))

/-- The column checks on the `analyze_and_model` batch path: `main`
raises when no expected clinical column is present, and
`build_feature_matrix` raises when `CTRCD` is absent (the columns added
by `add_comorbidity_score` never include `CTRCD`). -/
def analyze_checks (cols : List String) : Except String (List String) :=
  let keep := CLINICAL_COLS.filter (fun c => c ∈ cols)
  if keep.isEmpty then .error "No expected clinical columns found in input."
  else if "CTRCD" ∈ keep then .ok keep
  else .error "CTRCD column missing."

/-- Per-row `prev_therapy_any` of `preprocess_cardiotox.add_therapy_group`:
`((ACprev.fillna(0) > 0) | (antiHER2prev.fillna(0) > 0)).astype(int)`. -/
def prev_therapy_any (r : Row) : ℤ :=
  if 0 < (r "ACprev").getD 0 ∨ 0 < (r "antiHER2prev").getD 0 then 1 else 0

/-- C1's property: on the same raw field values, the serving shim and
the training pipeline compute the same derived features (the training
interaction columns are `Option`-valued since a cleaned-away flag makes
them NaN; the shim's are always present). -/
def derivedAgree (r : Row) : Prop :=
  srvBMI r = trainX r "BMI" ∧
  some (comorbidity_score_serve r) = trainX r "comorbidity_score" ∧
  some (LVEF_low (r "LVEF")) = trainX r "LVEF_low" ∧
  some (LVEF_50_60 (r "LVEF")) = trainX r "LVEF_50_60" ∧
  some (LVEF_ge60 (r "LVEF")) = trainX r "LVEF_ge60" ∧
  some (srvLVEFlowX r "AC") = trainX r "LVEF_low_x_AC" ∧
  some (srvLVEFlowX r "antiHER2") = trainX r "LVEF_low_x_antiHER2"

/-- C5's property as stated: in the training feature derivation, a
missing required input yields a missing derived value, for every derived
feature other than the comorbidity score. -/
def missing_propagates (r : Row) : Prop :=
  ((r "weight" = none ∨ r "height" = none) → trainX r "BMI" = none) ∧
  (r "LVEF" = none →
    trainX r "LVEF_low" = none ∧ trainX r "LVEF_50_60" = none ∧
    trainX r "LVEF_ge60" = none ∧ trainX r "LVEF_low_x_AC" = none ∧
    trainX r "LVEF_low_x_antiHER2" = none) ∧
  (r "AC" = none → trainX r "LVEF_low_x_AC" = none) ∧
  (r "antiHER2" = none → trainX r "LVEF_low_x_antiHER2" = none)

/-! ### Concrete rows and dicts used as test inputs -/

/-- A row with every field missing. -/
def rowEmpty : Row := fun _ => none

/-- The spec's example record: weight 70, height 175, LVEF 45, on
anthracyclines, no anti-HER2. -/
def rowWH : Row := fun k =>
  if k = "weight" then some 70
  else if k = "height" then some 175
  else if k = "LVEF" then some 45
  else if k = "AC" then some 1
  else if k = "antiHER2" then some 0
  else none

/-- A record whose LVEF value 100 is outside the plausible range. -/
def rowLVEF100 : Row := fun k => if k = "LVEF" then some 100 else none

/-- A record with weight 100 kg and height 100 cm (BMI 100). -/
def rowBMI100 : Row := fun k =>
  if k = "weight" then some 100
  else if k = "height" then some 100
  else none

/-- A record whose HTA flag holds the non-binary value 100. -/
def rowHTA100 : Row := fun k => if k = "HTA" then some 100 else none

/-- A record with two comorbidity flags set. -/
def rowFlags : Row := fun k =>
  if k = "HTA" then some 1 else if k = "DM" then some 1 else none

/-- Every expected clinical column except `LVEF`. -/
def colsNoLVEF : List String := CLINICAL_COLS.erase "LVEF"

/-- A request dict whose `age` value does not parse as a number. -/
def dictAgeBad : Dict := [("age", .str "abc")]

/-- A request dict carrying only an age. -/
def dictAge50 : Dict := [("age", .num 50)]

/-! ### Helper lemmas -/

theorem cleanRange_none (lo hi : ℚ) : cleanRange lo hi none = none := rfl

theorem cleanBin_none : cleanBin none = none := rfl

theorem cleanRange_out (lo hi q : ℚ) (h : q < lo ∨ hi < q) :
    cleanRange lo hi (some q) = none := by
  simp [cleanRange, h]

theorem cleanRange_in (lo hi q : ℚ) (h1 : lo ≤ q) (h2 : q ≤ hi) :
    cleanRange lo hi (some q) = some q := by
  rw [cleanRange, if_neg]
  rintro (h | h) <;> linarith

theorem cleanBin_not01 (q : ℚ) (h0 : q ≠ 0) (h1 : q ≠ 1) :
    cleanBin (some q) = none := by
  simp [cleanBin, h0, h1]

theorem cleanBin_01 (q : ℚ) (h : q = 0 ∨ q = 1) :
    cleanBin (some q) = some q := by
  simp [cleanBin, h]

/-- On an association list with distinct keys, `find?` at a present key
returns its entry. -/
theorem find?_of_mem_nodup (L : List (String × ℚ × ℚ)) (c : String)
    (lo hi : ℚ) (hmem : (c, lo, hi) ∈ L) (hnd : (L.map Prod.fst).Nodup) :
    L.find? (fun p => p.1 = c) = some (c, lo, hi) := by
  induction L with
  | nil => cases hmem
  | cons a t ih =>
    rcases List.mem_cons.mp hmem with rfl | hmem2
    · simp [List.find?]
    · have hnd2 := (List.nodup_cons.mp hnd)
      have hne : ¬(a.1 = c) := by
        intro he
        exact hnd2.1 (he ▸ List.mem_map_of_mem Prod.fst hmem2)
      rw [List.find?]
      rw [decide_eq_false hne]
      exact ih hmem2 hnd2.2

/-- On an association list without key `c`, `find?` at `c` fails. -/
theorem find?_of_not_mem (L : List (String × ℚ × ℚ)) (c : String)
    (h : c ∉ L.map Prod.fst) : L.find? (fun p => p.1 = c) = none := by
  apply List.find?_eq_none.mpr
  intro x hx
  simp only [decide_eq_true_eq]
  intro he
  exact h (he ▸ List.mem_map_of_mem Prod.fst hx)

theorem clean_ranges_val_eq_range (c : String) (lo hi : ℚ) (v : Option ℚ)
    (hfind : RANGES.find? (fun p => p.1 = c) = some (c, lo, hi))
    (hbin : c ∉ BIN_COLS) :
    clean_ranges_val c v = cleanRange lo hi v := by
  simp [clean_ranges_val, hfind, hbin]

theorem clean_ranges_val_eq_bin (c : String) (v : Option ℚ)
    (hfind : RANGES.find? (fun p => p.1 = c) = none)
    (hbin : c ∈ BIN_COLS) :
    clean_ranges_val c v = cleanBin v := by
  simp [clean_ranges_val, hfind, hbin]

theorem clean_values_val_eq_range (c : String) (lo hi : ℚ) (v : Option ℚ)
    (hfind : RANGES_PRE.find? (fun p => p.1 = c) = some (c, lo, hi))
    (hbin : c ∉ BIN_COLS_PRE) :
    clean_values_val c v = cleanRange lo hi v := by
  simp [clean_values_val, hfind, hbin]

theorem clean_values_val_eq_bin (c : String) (v : Option ℚ)
    (hfind : RANGES_PRE.find? (fun p => p.1 = c) = none)
    (hbin : c ∈ BIN_COLS_PRE) :
    clean_values_val c v = cleanBin v := by
  simp [clean_values_val, hfind, hbin]

theorem clean_ranges_val_none (c : String) : clean_ranges_val c none = none := by
  unfold clean_ranges_val
  rcases hf : RANGES.find? (fun p => p.1 = c) with _ | p <;>
    rw [hf] <;> split_ifs <;> simp [cleanRange, cleanBin]

/-! ### C2: BMI bounds -/

/-- The spec claim that a computed BMI is null or lies in [10, 60],
instantiated at one derivation output. -/
def bmiInRangeOrNull (v : Option ℚ) : Prop :=
  ∀ q, v = some q → 10 ≤ q ∧ q ≤ 60

/-- C2 (counterexample): the serving shim's BMI derivation does not
invalidate out-of-range values — weight 100 kg at height 100 cm yields
BMI 100, which is returned rather than nulled. -/
theorem C2_serve_bmi_counterexample : ¬ bmiInRangeOrNull (srvBMI rowBMI100) := by
  intro h
  have h100 : srvBMI rowBMI100 = some 100 := by
    simp +decide [srvBMI, rowBMI100]
  have := (h 100 h100).2
  norm_num at this

/-- C2 (amended): in the batch pipelines, `add_bmi` yields a BMI that is
either missing or within [10, 60]; any computed value outside that
interval is invalidated to missing. (The serving shim computes BMI
without this invalidation.) -/
theorem C2_batch_bmi_in_range (r : Row) (q : ℚ)
    (h : add_bmi_row r = some q) : 10 ≤ q ∧ q ≤ 60 := by
  rcases hw : r "weight" with _ | w
  · rcases hh : r "height" with _ | hgt <;> simp [add_bmi_row, hw, hh] at h
  rcases hh : r "height" with _ | hgt
  · simp [add_bmi_row, hw, hh] at h
  simp only [add_bmi_row, hw, hh] at h
  split_ifs at h with h0 hout
  obtain rfl := Option.some.inj h
  push_neg at hout
  exact hout

/-- C2 witness: the spec's example record (weight 70, height 175) has
BMI 1120/49 ≈ 22.86, inside the bounds. -/
theorem C2_batch_bmi_witness :
    add_bmi_row rowWH = some (1120/49) ∧
    (10 ≤ (1120/49 : ℚ) ∧ (1120/49 : ℚ) ≤ 60) :=
  ⟨by simp +decide [add_bmi_row, rowWH]; norm_num,
   C2_batch_bmi_in_range rowWH (1120/49)
     (by simp +decide [add_bmi_row, rowWH]; norm_num)⟩

/-! ### C4: LVEF band indicators -/

/-- C4: each LVEF band indicator is 0 or 1, the indicators are mutually
exclusive, their sum is 1 when LVEF is present and 0 when it is missing,
and LVEF 45 falls in the low band only. -/
theorem C4_lvef_bands (v : Option ℚ) :
    (LVEF_low v = 0 ∨ LVEF_low v = 1) ∧
    (LVEF_50_60 v = 0 ∨ LVEF_50_60 v = 1) ∧
    (LVEF_ge60 v = 0 ∨ LVEF_ge60 v = 1) ∧
    LVEF_low v * LVEF_50_60 v = 0 ∧
    LVEF_low v * LVEF_ge60 v = 0 ∧
    LVEF_50_60 v * LVEF_ge60 v = 0 ∧
    LVEF_low v + LVEF_50_60 v + LVEF_ge60 v =
      (match v with | some _ => 1 | none => 0) ∧
    LVEF_low (some 45) = 1 ∧ LVEF_50_60 (some 45) = 0 ∧
    LVEF_ge60 (some 45) = 0 := by
  have h45a : LVEF_low (some 45) = 1 := by decide
  have h45b : LVEF_50_60 (some 45) = 0 := by decide
  have h45c : LVEF_ge60 (some 45) = 0 := by decide
  rcases v with _ | l
  · refine ⟨Or.inl rfl, Or.inl rfl, Or.inl rfl, ?_, ?_, ?_, ?_, h45a, h45b, h45c⟩ <;>
      norm_num [LVEF_low, LVEF_50_60, LVEF_ge60]
  · rcases lt_or_le l 50 with h1 | h1
    · have e1 : LVEF_low (some l) = 1 := by
        simp only [LVEF_low]; exact if_pos h1
      have e2 : LVEF_50_60 (some l) = 0 := by
        simp only [LVEF_50_60]
        exact if_neg (by rintro ⟨ha, hb⟩; linarith)
      have e3 : LVEF_ge60 (some l) = 0 := by
        simp only [LVEF_ge60]
        exact if_neg (by intro ha; linarith)
      refine ⟨Or.inr e1, Or.inl e2, Or.inl e3, ?_, ?_, ?_, ?_, h45a, h45b, h45c⟩ <;>
        simp [e1, e2, e3]
    · rcases lt_or_le l 60 with h2 | h2
      · have e1 : LVEF_low (some l) = 0 := by
          simp only [LVEF_low]
          exact if_neg (by intro ha; linarith)
        have e2 : LVEF_50_60 (some l) = 1 := by
          simp only [LVEF_50_60]; exact if_pos ⟨h1, h2⟩
        have e3 : LVEF_ge60 (some l) = 0 := by
          simp only [LVEF_ge60]
          exact if_neg (by intro ha; linarith)
        refine ⟨Or.inl e1, Or.inr e2, Or.inl e3, ?_, ?_, ?_, ?_, h45a, h45b, h45c⟩ <;>
          simp [e1, e2, e3]
      · have e1 : LVEF_low (some l) = 0 := by
          simp only [LVEF_low]
          exact if_neg (by intro ha; linarith)
        have e2 : LVEF_50_60 (some l) = 0 := by
          simp only [LVEF_50_60]
          exact if_neg (by rintro ⟨ha, hb⟩; linarith)
        have e3 : LVEF_ge60 (some l) = 1 := by
          simp only [LVEF_ge60]; exact if_pos (by linarith)
        refine ⟨Or.inl e1, Or.inl e2, Or.inr e3, ?_, ?_, ?_, ?_, h45a, h45b, h45c⟩ <;>
          simp [e1, e2, e3]

/-! ### C7: range and binary cleaning -/

/-- C7: for every column with a per-column plausible range, an
out-of-range value becomes missing (not clipped) and an in-range value
is unchanged; for every binary column, a value other than 0 and 1
becomes missing — in the analysis script's `clean_ranges` and the
preprocessing script's `clean_values` alike. -/
theorem C7_cleaning (c : String) (lo hi q : ℚ) :
    ((c, lo, hi) ∈ RANGES →
      ((q < lo ∨ hi < q) → clean_ranges_val c (some q) = none) ∧
      (lo ≤ q → q ≤ hi → clean_ranges_val c (some q) = some q)) ∧
    (c ∈ BIN_COLS → q ≠ 0 → q ≠ 1 → clean_ranges_val c (some q) = none) ∧
    ((c, lo, hi) ∈ RANGES_PRE →
      ((q < lo ∨ hi < q) → clean_values_val c (some q) = none) ∧
      (lo ≤ q → q ≤ hi → clean_values_val c (some q) = some q)) ∧
    (c ∈ BIN_COLS_PRE → q ≠ 0 → q ≠ 1 → clean_values_val c (some q) = none) := by
  refine ⟨?_, ?_, ?_, ?_⟩
  · intro hm
    have hbin : c ∉ BIN_COLS := by
      have hdisj : ∀ x ∈ RANGES.map Prod.fst, x ∉ BIN_COLS := by decide
      exact hdisj c (List.mem_map_of_mem Prod.fst hm)
    have hfind := find?_of_mem_nodup RANGES c lo hi hm (by decide)
    constructor
    · intro hout
      rw [clean_ranges_val_eq_range c lo hi (some q) hfind hbin]
      exact cleanRange_out lo hi q hout
    · intro h1 h2
      rw [clean_ranges_val_eq_range c lo hi (some q) hfind hbin]
      exact cleanRange_in lo hi q h1 h2
  · intro hc h0 h1
    have hfind : RANGES.find? (fun p => p.1 = c) = none := by
      apply find?_of_not_mem
      have hdisj : ∀ x ∈ BIN_COLS, x ∉ RANGES.map Prod.fst := by decide
      exact hdisj c hc
    rw [clean_ranges_val_eq_bin c (some q) hfind hc]
    exact cleanBin_not01 q h0 h1
  · intro hm
    have hbin : c ∉ BIN_COLS_PRE := by
      have hdisj : ∀ x ∈ RANGES_PRE.map Prod.fst, x ∉ BIN_COLS_PRE := by decide
      exact hdisj c (List.mem_map_of_mem Prod.fst hm)
    have hfind := find?_of_mem_nodup RANGES_PRE c lo hi hm (by decide)
    constructor
    · intro hout
      rw [clean_values_val_eq_range c lo hi (some q) hfind hbin]
      exact cleanRange_out lo hi q hout
    · intro h1 h2
      rw [clean_values_val_eq_range c lo hi (some q) hfind hbin]
      exact cleanRange_in lo hi q h1 h2
  · intro hc h0 h1
    have hfind : RANGES_PRE.find? (fun p => p.1 = c) = none := by
      apply find?_of_not_mem
      have hdisj : ∀ x ∈ BIN_COLS_PRE, x ∉ RANGES_PRE.map Prod.fst := by decide
      exact hdisj c hc
    rw [clean_values_val_eq_bin c (some q) hfind hc]
    exact cleanBin_not01 q h0 h1

/-- C7 witness: age 120 is cleaned to missing, age 50 is kept unchanged,
and a binary flag value 2 is cleaned to missing. -/
theorem C7_cleaning_witness :
    clean_ranges_val "age" (some 120) = none ∧
    clean_values_val "age" (some 50) = some 50 ∧
    clean_ranges_val "HTA" (some 2) = none :=
  ⟨((C7_cleaning "age" 18 95 120).1 (by decide)).1 (by norm_num),
   ((C7_cleaning "age" 18 95 50).2.2.1 (by decide)).2 (by norm_num) (by norm_num),
   (C7_cleaning "HTA" 0 0 2).2.1 (by decide) (by norm_num) (by norm_num)⟩

/-! ### C3: comorbidity score -/

/-- Summing a list of optional values with missing read as 0 equals
summing its present values. -/
theorem filterMap_sum_eq_getD_sum (l : List (Option ℚ)) :
    (l.filterMap id).sum = (l.map (fun v => v.getD 0)).sum := by
  induction l with
  | nil => rfl
  | cons a t ih => cases a <;> simp [List.filterMap_cons, ih]

/-- A list of rationals each in [0, 1] sums to a value in [0, length]. -/
theorem sum_bounds_of_unit (l : List ℚ) (h : ∀ x ∈ l, 0 ≤ x ∧ x ≤ 1) :
    0 ≤ l.sum ∧ l.sum ≤ l.length := by
  induction l with
  | nil => simp
  | cons a t ih =>
    have ha := h a (List.mem_cons_self a t)
    have ht := ih (fun x hx => h x (List.mem_cons_of_mem a hx))
    simp only [List.sum_cons, List.length_cons]
    push_cast
    constructor
    · linarith [ha.1, ht.1]
    · linarith [ha.2, ht.2]

/-- C3 (counterexample): the score is computed before any binary
cleaning, so a row whose HTA flag holds 100 gets comorbidity score 100,
outside [0, 10] — in the training derivation and the serving shim alike. -/
theorem C3_score_counterexample :
    comorbidity_score_train rowHTA100 = 100 ∧
    comorbidity_score_serve rowHTA100 = 100 ∧
    ¬ comorbidity_score_train rowHTA100 ≤ 10 := by
  refine ⟨?_, ?_, ?_⟩
  · norm_num +decide [comorbidity_score_train, rowHTA100, COM_COLS]
  · unfold comorbidity_score_serve
    rw [filterMap_sum_eq_getD_sum]
    norm_num +decide [rowHTA100, COM_COLS]
  · norm_num +decide [comorbidity_score_train, rowHTA100, COM_COLS]

/-- The serving shim's nansum over present flags and the training
fillna-sum agree on every row. -/
theorem comorbidity_serve_eq_train (r : Row) :
    comorbidity_score_serve r = comorbidity_score_train r := by
  unfold comorbidity_score_serve comorbidity_score_train
  rw [filterMap_sum_eq_getD_sum, List.map_map]
  rfl

/-- C3 (amended): the comorbidity score is the sum of the ten flag
values with missing read as 0 (identically in training and serving);
when every present flag value is 0 or 1 the score lies in [0, 10].
An uncleaned non-binary flag value can push the score outside. -/
theorem C3_score_amended (r : Row)
    (h : ∀ c ∈ COM_COLS, ∀ q, r c = some q → q = 0 ∨ q = 1) :
    comorbidity_score_serve r = comorbidity_score_train r ∧
    0 ≤ comorbidity_score_train r ∧ comorbidity_score_train r ≤ 10 := by
  have heq := comorbidity_serve_eq_train r
  have hunit : ∀ x ∈ COM_COLS.map (fun c => (r c).getD 0), 0 ≤ x ∧ x ≤ 1 := by
    intro x hx
    obtain ⟨c, hc, rfl⟩ := List.mem_map.mp hx
    rcases hrc : r c with _ | q
    · norm_num
    · rcases h c hc q hrc with rfl | rfl <;> norm_num
  have hb := sum_bounds_of_unit (COM_COLS.map (fun c => (r c).getD 0)) hunit
  refine ⟨heq, hb.1, ?_⟩
  have hlen : (((COM_COLS.map (fun c => (r c).getD 0)).length : ℕ) : ℚ) = 10 := by
    simp [COM_COLS]
  unfold comorbidity_score_train
  rw [← hlen]
  exact hb.2

/-- C3 witness: a record with the HTA and DM flags set has the same
score 2 in both derivations, within [0, 10]. -/
theorem C3_score_witness :
    comorbidity_score_serve rowFlags = comorbidity_score_train rowFlags ∧
    0 ≤ comorbidity_score_train rowFlags ∧
    comorbidity_score_train rowFlags ≤ 10 :=
  C3_score_amended rowFlags (by
    intro c hc q hq
    fin_cases hc <;> simp +decide [rowFlags] at hq <;> simp [hq])

/-! ### C5: propagation of missing inputs -/

/-- C5 (counterexample): missing does not propagate as missing through
the LVEF band indicators — on an all-missing row the `LVEF_low` feature
is 0, not missing, refuting the claim. -/
theorem C5_missing_counterexample :
    rowEmpty "LVEF" = none ∧ trainX rowEmpty "LVEF_low" = some 0 ∧
    ¬ missing_propagates rowEmpty :=
  ⟨rfl, by decide, fun h => absurd ((h.2.1 rfl).1) (by decide)⟩

/-- C5 (amended): missing weight or height makes BMI missing, and a
missing treatment flag makes the training interaction term missing; but
a missing LVEF makes the band indicators (and through them the
interaction factors) 0 rather than missing, and `prev_therapy_any`
treats missing flags as 0. Only BMI and the interaction terms propagate
missing inputs as missing. -/
theorem C5_missing_amended (r : Row) :
    ((r "weight" = none ∨ r "height" = none) → trainX r "BMI" = none) ∧
    (r "AC" = none → trainX r "LVEF_low_x_AC" = none) ∧
    (r "antiHER2" = none → trainX r "LVEF_low_x_antiHER2" = none) ∧
    (r "LVEF" = none → trainX r "LVEF_low" = some 0 ∧
      trainX r "LVEF_50_60" = some 0 ∧ trainX r "LVEF_ge60" = some 0) ∧
    (r "ACprev" = none → r "antiHER2prev" = none → prev_therapy_any r = 0) := by
  refine ⟨?_, ?_, ?_, ?_, ?_⟩
  · intro hmiss
    show add_bmi_row r = none
    rcases hmiss with hw | hh
    · rcases hh : r "height" with _ | hgt <;> simp [add_bmi_row, hw, hh]
    · rcases hw : r "weight" with _ | w <;> simp [add_bmi_row, hw, hh]
  · intro hac
    show (clean_ranges_val "AC" (r "AC")).map
      (fun a => LVEF_low (cleanLVEF r) * a) = none
    rw [hac, clean_ranges_val_none]
    rfl
  · intro hher
    show (clean_ranges_val "antiHER2" (r "antiHER2")).map
      (fun a => LVEF_low (cleanLVEF r) * a) = none
    rw [hher, clean_ranges_val_none]
    rfl
  · intro hl
    have hcl : cleanLVEF r = none := by
      unfold cleanLVEF
      rw [hl]
      exact clean_ranges_val_none "LVEF"
    refine ⟨?_, ?_, ?_⟩
    · show some (LVEF_low (cleanLVEF r)) = some 0
      rw [hcl]
      rfl
    · show some (LVEF_50_60 (cleanLVEF r)) = some 0
      rw [hcl]
      rfl
    · show some (LVEF_ge60 (cleanLVEF r)) = some 0
      rw [hcl]
      rfl
  · intro h1 h2
    simp [prev_therapy_any, h1, h2]

/-- C5 witness: on the all-missing row, BMI and the training interaction
term are missing and `prev_therapy_any` is 0. -/
theorem C5_missing_witness :
    trainX rowEmpty "BMI" = none ∧
    trainX rowEmpty "LVEF_low_x_AC" = none ∧
    prev_therapy_any rowEmpty = 0 :=
  ⟨(C5_missing_amended rowEmpty).1 (Or.inl rfl),
   (C5_missing_amended rowEmpty).2.1 rfl,
   (C5_missing_amended rowEmpty).2.2.2.2 rfl rfl⟩

/-! ### C8: missing-column failure -/

/-- C8 (counterexample): dropping the expected column `LVEF` aborts
neither batch script — `read_csv` keeps the remaining columns, every
column the preprocessing steps access unconditionally is still present,
and the analysis checks pass since `CTRCD` is present. -/
theorem C8_missing_column_counterexample :
    "LVEF" ∈ CLINICAL_COLS ∧ "LVEF" ∉ colsNoLVEF ∧
    isErr (preprocess_checks colsNoLVEF) = false ∧
    isErr (analyze_checks colsNoLVEF) = false := by
  decide

theorem isErr_preprocess_checks (cols : List String) :
    isErr (preprocess_checks cols) =
      ((CLINICAL_COLS.filter (fun c => c ∈ cols)).isEmpty ||
       (PRE_REQUIRED_COLS.find? (fun c =>
          c ∉ CLINICAL_COLS.filter (fun c2 => c2 ∈ cols))).isSome) := by
  unfold preprocess_checks isErr
  cases hx : (CLINICAL_COLS.filter (fun c => c ∈ cols)).isEmpty <;>
    cases hf : PRE_REQUIRED_COLS.find? (fun c =>
        c ∉ CLINICAL_COLS.filter (fun c2 => c2 ∈ cols)) <;>
      simp [hx, hf]

theorem isErr_analyze_checks (cols : List String) :
    isErr (analyze_checks cols) =
      ((CLINICAL_COLS.filter (fun c => c ∈ cols)).isEmpty ||
       !(decide ("CTRCD" ∈ CLINICAL_COLS.filter (fun c => c ∈ cols)))) := by
  unfold analyze_checks isErr
  cases hx : (CLINICAL_COLS.filter (fun c => c ∈ cols)).isEmpty <;>
    by_cases hc : "CTRCD" ∈ CLINICAL_COLS.filter (fun c => c ∈ cols) <;>
      simp [hx, hc]

/-- C8 (amended): the preprocessing script raises a hard failure exactly
when no expected clinical column is present or one of the
unconditionally accessed columns (height, weight, age, AC, antiHER2,
ACprev, antiHER2prev) is absent, the latter as a `KeyError` in the
derivation steps; the analysis script raises exactly when no expected
clinical column is present or `CTRCD` is absent. A missing expected
column outside those sets (such as `LVEF`) aborts neither script. -/
theorem C8_column_check_amended (cols : List String) :
    (isErr (preprocess_checks cols) = true ↔
      (∀ c ∈ CLINICAL_COLS, c ∉ cols) ∨ ∃ c ∈ PRE_REQUIRED_COLS, c ∉ cols) ∧
    (isErr (analyze_checks cols) = true ↔
      (∀ c ∈ CLINICAL_COLS, c ∉ cols) ∨ "CTRCD" ∉ cols) := by
  have key : (CLINICAL_COLS.filter (fun c => c ∈ cols)).isEmpty = true ↔
      ∀ c ∈ CLINICAL_COLS, c ∉ cols := by
    rw [List.isEmpty_iff, List.filter_eq_nil_iff]
    simp
  have kc : ("CTRCD" ∈ CLINICAL_COLS.filter (fun c => c ∈ cols)) ↔
      "CTRCD" ∈ cols :=
    ⟨fun h => by simpa using (List.mem_filter.mp h).2,
     fun h => List.mem_filter.mpr ⟨by decide, by simpa using h⟩⟩
  have hreq : ∀ c ∈ PRE_REQUIRED_COLS,
      (c ∈ CLINICAL_COLS.filter (fun c2 => c2 ∈ cols) ↔ c ∈ cols) := by
    intro c hc
    rw [List.mem_filter]
    constructor
    · intro h
      simpa using h.2
    · intro h
      refine ⟨?_, by simpa using h⟩
      fin_cases hc <;> decide
  have hfind : (PRE_REQUIRED_COLS.find? (fun c =>
      c ∉ CLINICAL_COLS.filter (fun c2 => c2 ∈ cols))).isSome = true ↔
      ∃ c ∈ PRE_REQUIRED_COLS, c ∉ cols := by
    rw [List.find?_isSome]
    constructor
    · rintro ⟨c, hc, hp⟩
      rw [decide_eq_true_eq] at hp
      exact ⟨c, hc, fun hmem => hp ((hreq c hc).mpr hmem)⟩
    · rintro ⟨c, hc, hp⟩
      refine ⟨c, hc, ?_⟩
      rw [decide_eq_true_eq]
      exact fun hk => hp ((hreq c hc).mp hk)
  constructor
  · rw [isErr_preprocess_checks]
    simp only [Bool.or_eq_true]
    rw [key, hfind]
  · rw [isErr_analyze_checks]
    simp only [Bool.or_eq_true, Bool.not_eq_true', decide_eq_false_iff_not]
    rw [key, kc]

/-! ### C6: feature-vector column order -/

/-- C6: the one-row frame built by the serving shim has exactly the
stored feature names as columns, in the stored order, and a feature that
is neither a derived column nor present in the request dict is filled
with null. -/
theorem C6_row_order (features : List String) (d : Dict) :
    (build_row features d).map Prod.fst = features ∧
    ∀ f ∈ features, f ∉ DERIVED_COLS → getIn d f = none →
      (f, (none : Option ℚ)) ∈ build_row features d := by
  constructor
  · simp [build_row, Function.comp_def]
  · intro f hf hnd hmiss
    have hx : xParsed d f = none := by
      unfold xParsed
      split_ifs <;> simp [hmiss, to_float]
    have hd : srvDerived (xParsed d) f = none := by
      simp only [DERIVED_COLS, List.mem_cons, List.not_mem_nil, or_false] at hnd
      push_neg at hnd
      obtain ⟨n1, n2, n3, n4, n5, n6, n7⟩ := hnd
      simp [srvDerived, n1, n2, n3, n4, n5, n6, n7, hx]
    have hmem : (f, srvDerived (xParsed d) f) ∈ build_row features d :=
      List.mem_map_of_mem (fun f => (f, srvDerived (xParsed d) f)) hf
    rw [hd] at hmem
    exact hmem

/-- The feature list used in the C6 witness: one raw input, one derived
feature, one name unknown to the shim. -/
def featsWit : List String := ["age", "BMI", "foo"]

/-- C6 witness: for stored features [age, BMI, foo] and a request
carrying only an age, the row has exactly those columns in order, and
the unknown feature foo is null. -/
theorem C6_row_order_witness :
    (build_row featsWit dictAge50).map Prod.fst = featsWit ∧
    ("foo", (none : Option ℚ)) ∈ build_row featsWit dictAge50 :=
  ⟨(C6_row_order featsWit dictAge50).1,
   (C6_row_order featsWit dictAge50).2 "foo" (by decide) (by decide) (by decide)⟩

/-! ### C9: lenient field extraction -/

/-- C9: field extraction in the serving shim never fails — a base-input
field that is absent or does not parse becomes `None` in the parsed
record and null in the assembled row, and `predict` still returns the
full five-field response. -/
theorem C9_lenient_extraction (d : Dict) (k : String)
    (hk : k ∈ BASE_INPUTS) (hmiss : to_float (getIn d k) = none) :
    xParsed d k = none ∧
    (∀ features, k ∈ features →
      (k, (none : Option ℚ)) ∈ build_row features d) ∧
    (∀ m features t, (predict m features ⟨d, t⟩).length = 5) := by
  have hx : xParsed d k = none := by
    unfold xParsed
    rw [if_pos hk]
    exact hmiss
  have hnd : k ∉ DERIVED_COLS := by
    have hdisj : ∀ x ∈ BASE_INPUTS, x ∉ DERIVED_COLS := by decide
    exact hdisj k hk
  have hd : srvDerived (xParsed d) k = none := by
    simp only [DERIVED_COLS, List.mem_cons, List.not_mem_nil, or_false] at hnd
    push_neg at hnd
    obtain ⟨n1, n2, n3, n4, n5, n6, n7⟩ := hnd
    simp [srvDerived, n1, n2, n3, n4, n5, n6, n7, hx]
  refine ⟨hx, ?_, ?_⟩
  · intro features hf
    have hmem : (k, srvDerived (xParsed d) k) ∈ build_row features d :=
      List.mem_map_of_mem (fun f => (f, srvDerived (xParsed d) f)) hf
    rw [hd] at hmem
    exact hmem
  · intro m features t
    rfl

/-- C9 witness: an `age` field holding the unparseable string "abc"
comes through as missing, without an error. -/
theorem C9_lenient_extraction_witness : xParsed dictAgeBad "age" = none :=
  (C9_lenient_extraction dictAgeBad "age" (by decide) (by decide)).1

/-! ### C10: shape and semantics of the /predict response -/

/-- C10: the response of `/predict` has exactly the keys prob, pred,
threshold, echo, feature_count in source order; the effective threshold
is the request threshold when supplied and 0.30 otherwise; pred is 1
exactly when the probability reaches the effective threshold, else 0;
and prob is the model probability on the built row. -/
theorem C10_predict_response (m : List (String × Option ℚ) → ℚ)
    (features : List String) (d : Dict) (t : Option ℚ) :
    (predict m features ⟨d, t⟩).map Prod.fst =
      ["prob", "pred", "threshold", "echo", "feature_count"] ∧
    (predict m features ⟨d, t⟩).find? (fun p => p.1 = "threshold") =
      some ("threshold", .rq (t.getD (3/10))) ∧
    (predict m features ⟨d, t⟩).find? (fun p => p.1 = "pred") =
      some ("pred", .ri (if t.getD (3/10) ≤ m (build_row features d)
        then 1 else 0)) ∧
    (predict m features ⟨d, t⟩).find? (fun p => p.1 = "prob") =
      some ("prob", .rq (m (build_row features d))) :=
  ⟨rfl, rfl, rfl, rfl⟩

/-! ### C1: training vs serving feature derivation -/

/-- C1 (counterexample): on a record whose raw LVEF is 100, the training
pipeline cleans LVEF to missing before banding (all bands 0) while the
shim bands the raw value (high band 1), so the two derivations disagree
on the same raw field values. -/
theorem C1_derivation_counterexample :
    rowLVEF100 "LVEF" = some 100 ∧
    LVEF_ge60 (rowLVEF100 "LVEF") = 1 ∧
    trainX rowLVEF100 "LVEF_ge60" = some 0 ∧
    ¬ derivedAgree rowLVEF100 :=
  ⟨rfl, by decide, by decide, fun h => absurd h.2.2.2.2.1 (by decide)⟩

/-- C1 (amended): the serving derivation agrees with the training
derivation on every record whose LVEF is missing or inside the plausible
range [10, 80], whose weight/height (when both present and non-zero)
have positive height and a BMI inside [10, 60], and whose treatment
flags AC and antiHER2 are present with values 0 or 1. Outside those
conditions the training cleaning and BMI invalidation (absent from the
shim) make the derivations diverge. -/
theorem C1_derivation_amended (r : Row)
    (hL : ∀ l, r "LVEF" = some l → 10 ≤ l ∧ l ≤ 80)
    (hB : ∀ w h, r "weight" = some w → r "height" = some h → w ≠ 0 → h ≠ 0 →
      0 < h ∧ 10 ≤ w / (h / 100 * (h / 100)) ∧ w / (h / 100 * (h / 100)) ≤ 60)
    (hAC : ∃ a, r "AC" = some a ∧ (a = 0 ∨ a = 1))
    (hH : ∃ b, r "antiHER2" = some b ∧ (b = 0 ∨ b = 1)) :
    derivedAgree r := by
  obtain ⟨a, hac, ha01⟩ := hAC
  obtain ⟨b, hher, hb01⟩ := hH
  have hcl : cleanLVEF r = r "LVEF" := by
    unfold cleanLVEF
    rcases hl : r "LVEF" with _ | l
    · exact clean_ranges_val_none "LVEF"
    · obtain ⟨h1, h2⟩ := hL l hl
      rw [clean_ranges_val_eq_range "LVEF" 10 80 (some l) (by decide) (by decide)]
      exact cleanRange_in 10 80 l h1 h2
  have hacC : clean_ranges_val "AC" (r "AC") = some a := by
    rw [hac, clean_ranges_val_eq_bin "AC" (some a) (by decide) (by decide)]
    exact cleanBin_01 a ha01
  have hherC : clean_ranges_val "antiHER2" (r "antiHER2") = some b := by
    rw [hher, clean_ranges_val_eq_bin "antiHER2" (some b) (by decide) (by decide)]
    exact cleanBin_01 b hb01
  refine ⟨?_, ?_, ?_, ?_, ?_, ?_, ?_⟩
  · show srvBMI r = add_bmi_row r
    rcases hw : r "weight" with _ | w
    · rcases hh : r "height" with _ | hgt <;> simp [srvBMI, add_bmi_row, hw, hh]
    rcases hh : r "height" with _ | hgt
    · simp [srvBMI, add_bmi_row, hw, hh]
    by_cases hw0 : w = 0
    · subst hw0
      by_cases hh0 : hgt = 0
      · subst hh0
        simp [srvBMI, add_bmi_row, hw, hh]
      · have hm0 : hgt / 100 ≠ 0 := by simpa using hh0
        simp [srvBMI, add_bmi_row, hw, hh, hm0]
    · by_cases hh0 : hgt = 0
      · subst hh0
        simp [srvBMI, add_bmi_row, hw, hh, hw0]
      · obtain ⟨hpos, hlo, hhi⟩ := hB w hgt hw hh hw0 hh0
        have hm0 : hgt / 100 ≠ 0 := by simpa using hh0
        have hmpos : 0 < hgt / 100 := div_pos hpos (by norm_num)
        have hsrv : srvBMI r = some (w / (hgt / 100 * (hgt / 100))) := by
          simp only [srvBMI, hw, hh]
          rw [if_neg (by push_neg; exact ⟨hw0, hh0⟩), if_pos ⟨hm0, hmpos⟩]
        have htrn : add_bmi_row r = some (w / (hgt / 100 * (hgt / 100))) := by
          simp only [add_bmi_row, hw, hh]
          rw [if_neg hm0, if_neg (by push_neg; exact ⟨hlo, hhi⟩)]
        rw [hsrv, htrn]
  · show some (comorbidity_score_serve r) = some (comorbidity_score_train r)
    exact congrArg some (comorbidity_serve_eq_train r)
  · show some (LVEF_low (r "LVEF")) = some (LVEF_low (cleanLVEF r))
    rw [hcl]
  · show some (LVEF_50_60 (r "LVEF")) = some (LVEF_50_60 (cleanLVEF r))
    rw [hcl]
  · show some (LVEF_ge60 (r "LVEF")) = some (LVEF_ge60 (cleanLVEF r))
    rw [hcl]
  · show some (srvLVEFlowX r "AC") =
      (clean_ranges_val "AC" (r "AC")).map (fun x => LVEF_low (cleanLVEF r) * x)
    rw [hacC, hcl]
    show some (LVEF_low (r "LVEF") * (r "AC").getD 0) =
      some (LVEF_low (r "LVEF") * a)
    rw [hac]
    rfl
  · show some (srvLVEFlowX r "antiHER2") =
      (clean_ranges_val "antiHER2" (r "antiHER2")).map
        (fun x => LVEF_low (cleanLVEF r) * x)
    rw [hherC, hcl]
    show some (LVEF_low (r "LVEF") * (r "antiHER2").getD 0) =
      some (LVEF_low (r "LVEF") * b)
    rw [hher]
    rfl

/-- C1 witness: on the spec's example record (weight 70, height 175,
LVEF 45, AC 1, antiHER2 0) the serving shim and the training pipeline
derive identical features. -/
theorem C1_derivation_witness : derivedAgree rowWH :=
  C1_derivation_amended rowWH
    (by
      intro l hl
      have hl2 : some (45 : ℚ) = some l := hl
      obtain rfl := Option.some.inj hl2
      norm_num)
    (by
      intro w h hw hh hw0 hh0
      have hw2 : some (70 : ℚ) = some w := hw
      have hh2 : some (175 : ℚ) = some h := hh
      obtain rfl := Option.some.inj hw2
      obtain rfl := Option.some.inj hh2
      norm_num)
    ⟨1, rfl, Or.inr rfl⟩
    ⟨0, rfl, Or.inl rfl⟩

end Cardiotox
